import Mathlib

/- Verification development for the Medaltea backend (RAG pipeline).
   The definitions below are a shallow embedding of the Python sources:
   backend/rag_api.py, backend/vector_db_api.py, data/ingest_documents.py.
   External collaborators (the LLM provider, the embedding provider, the
   PGVector store, format-specific langchain loaders) are modelled as
   parameters or explicit outcome values; everything the repository itself
   computes is translated directly from the source. -/

namespace Medaltea

/- ===== rag_api.py ===== -/

/-- Embeds the pydantic model RetrievedDoc (rag_api.py lines 35-38).
    metadata is a string-keyed map, modelled as an association list read
    through List.lookup (first binding wins, like a Python dict read). -/
structure RetrievedDoc where
  page_content : String
  metadata : List (String × String)
deriving DecidableEq

/-- Embeds the pydantic model ChatRequest (rag_api.py lines 29-33). -/
structure ChatRequest where
  message : String
  history : List (List String)
deriving DecidableEq

/-- LangChain message objects (SystemMessage / HumanMessage / AIMessage). -/
inductive Msg where
  | system (text : String)
  | user (text : String)
  | assistant (text : String)
deriving DecidableEq

/-- One passage of the RAG context block (rag_api.py line 55):
    f"Source: \x7bd.metadata.get( 'source' , 'Doc' )\x7d\nContenu: \x7bd.page_content\x7d". -/
def renderDoc (d : RetrievedDoc) : String :=
  "Source: " ++ (List.lookup "source" d.metadata).getD "Doc" ++ "\nContenu: " ++ d.page_content

/-- The docs_content block of build_system_prompt (rag_api.py lines 53-57):
    joined passages when any were retrieved, a fixed French sentence otherwise. -/
def contextBlock (retrieved_docs : List RetrievedDoc) : String :=
  match retrieved_docs with
  | [] => "Aucune documentation spécifique trouvée pour cette requête."
  | ds => String.intercalate "\n\n" (ds.map renderDoc)

/-- Text of the prompt template before the interpolated docs_content
    (rag_api.py lines 59-64). -/
def promptHead : String :=
  "Tu es Medaltea, l\x27assistant expert en médecines douces (Naturopathie, MTC, Phytothérapie).\nTa mission : Démocratiser la santé naturelle avec bienveillance, concision et empathie.\n\n### DONNÉES D\x27ENTRÉE (CONTEXTE RAG)\n<context>\n"

/-- Text of the prompt template after the interpolated docs_content
    (rag_api.py lines 65-102). -/
def promptTail : String :=
  "\n</context>\n\n### PROTOCOLE DE SÉCURITÉ (Priorité Absolue)\nAvant toute chose, analyse la demande :\n- Si urgence vitale (douleur poitrine, souffle court, malaise grave) : Réponds UNIQUEMENT : \"STOP. Cela ressemble à une urgence. Appelle immédiatement le 15 ou rends-toi aux urgences. Je ne suis pas médecin.\"\n- Rappel constant : Tu ne poses pas de diagnostic médical.\n\n### RÈGLES DE FORMATAGE (Strictes)\n1.  **Langue :** Français uniquement.\n2.  **Style \"Plain Text\" :** - AUCUN formatage Markdown (pas de gras \x60**\x60, pas d\x27italique \x60*\x60, pas de titres \x60#\x60).\n    - Utilise des tirets simples (-) pour les listes.\n    - AUCUN émoji.\n3.  **Fidélité :** Réponds UNIQUEMENT basé sur les informations présentes dans les balises <context>. Si l\x27info n\x27y est pas, dis : \"Je n\x27ai pas cette information dans mes fiches actuelles.\"\n\n### PROCESSUS DE RÉPONSE\nConstruis ta réponse en suivant scrupuleusement ces 4 étapes :\n\nÉTAPE 1 : EMPATHIE & CAUSE\n- Valide le ressenti de l\x27utilisateur.\n- Si le <context> l\x27explique, mentionne la cause selon l\x27approche holistique en 1 phrase simple.\n\nÉTAPE 2 : CONSEILS PRATIQUES\n- Liste les conseils d\x27hygiène de vie ou alimentaires trouvés dans le <context>.\n- Utilise des tirets (-) pour lister les points.\n- Sois concis.\n\nÉTAPE 3 : LE PRODUIT BIOCOOP (Optionnel)\n- VERIFICATION : Cherche dans le <context> un produit spécifique vendu chez Biocoop lié au conseil.\n- SI TROUVÉ : Ajoute la phrase exacte : \"Pour t\x27aider, tu peux utiliser [Nom du Produit](URL) disponible chez Biocoop.\"\n- SI NON TROUVÉ : Ne dis rien pour cette étape.\n\nÉTAPE 4 : L\x27EXPERT (Optionnel)\n- VERIFICATION : Cherche dans le <context> une recommandation de praticien localisé.\n- CAS A (Praticien trouvé) : Écris \"Pour un suivi complet, je te suggère [Nom], [Spécialité] à [Adresse].\"\n- CAS B (Besoin expert mentionné mais pas de lieu) : Écris \"Veux-tu que je cherche un spécialiste près de chez toi ? Si oui, dis-moi dans quelle ville tu es.\"\n\n---\nGénère maintenant ta réponse en appliquant ces directives à la lettre."

/-- Embeds build_system_prompt (rag_api.py lines 43-102): the f-string is the
    fixed head, the docs_content block, then the fixed tail. -/
def build_system_prompt (retrieved_docs : List RetrievedDoc) : String :=
  promptHead ++ contextBlock retrieved_docs ++ promptTail

/-- One iteration of the loop in format_history (rag_api.py lines 107-113):
    turns with fewer than two elements are skipped, only turn[0] and turn[1]
    are read, and a falsy (empty) string on either side drops that message. -/
def turnMsgs : List String → List Msg
  | user_msg :: bot_msg :: _ =>
      (if user_msg ≠ "" then [Msg.user user_msg] else []) ++
      (if bot_msg ≠ "" then [Msg.assistant bot_msg] else [])
  | _ => []

/-- Embeds format_history (rag_api.py lines 104-114). -/
def format_history : List (List String) → List Msg
  | [] => []
  | turn :: rest => turnMsgs turn ++ format_history rest

/-- Message assembly in stream_chat_response (rag_api.py lines 154-162):
    system prompt first, then folded history, then the current user message. -/
def compose (docs : List RetrievedDoc) (history : List (List String)) (message : String) : List Msg :=
  Msg.system (build_system_prompt docs) :: (format_history history ++ [Msg.user message])

/-- The try/except around the /search call (rag_api.py lines 146-152):
    a successful call yields its parsed documents, any raised error is
    logged and replaced by the empty list. -/
def retrievalDocs : Except String (List RetrievedDoc) → List RetrievedDoc
  | Except.ok ds => ds
  | Except.error _ => []

/-- Embeds stream_chat_response up to the model invocation (rag_api.py lines
    138-167): the retrieval outcome is absorbed by retrievalDocs and the
    composed message list is always handed to generation (Except.ok). -/
def stream_chat_messages (search_result : Except String (List RetrievedDoc))
    (req : ChatRequest) : Except String (List Msg) :=
  Except.ok (compose (retrievalDocs search_result) req.history req.message)

/-- True exactly on SystemMessage-shaped messages. -/
def isSystemMsg : Msg → Bool
  | Msg.system _ => true
  | _ => false

/- ===== helper lemmas ===== -/

theorem turnMsgs_filter_system (t : List String) :
    (turnMsgs t).filter isSystemMsg = [] := by
  match t with
  | [] => rfl
  | [u] => rfl
  | u :: b :: rest =>
      simp only [turnMsgs, List.filter_append]
      split <;> split <;> simp [isSystemMsg]

theorem format_history_filter_system (h : List (List String)) :
    (format_history h).filter isSystemMsg = [] := by
  induction h with
  | nil => rfl
  | cons t rest ih =>
      simp [format_history, List.filter_append, ih, turnMsgs_filter_system]

/- ===== claim theorems for rag_api.py ===== -/

/-- Claim C1: when the retrieval call fails with any error, the orchestrator
    proceeds with an empty passage set, still invokes prompt composition and
    generation, and never turns the chat request into a failure. -/
theorem chat_swallows_retrieval_failure (e : String) (req : ChatRequest) :
    stream_chat_messages (Except.error e) req
      = Except.ok (compose [] req.history req.message) ∧
    (∀ err : String, stream_chat_messages (Except.error e) req ≠ Except.error err) ∧
    (stream_chat_messages (Except.error e) req).isOk = true := by
  refine ⟨rfl, ?_, rfl⟩
  intro err hcontra
  simp [stream_chat_messages] at hcontra

/-- Claim C2: the context block renders each passage as
    "Source: " followed by the metadata source (default "Doc"), a newline,
    "Contenu: " and the passage text, blocks joined by a blank line; the
    empty passage list yields the fixed no-documentation sentence, never the
    empty string; and the system prompt for the concrete example passage
    contains the expected rendering verbatim. -/
theorem context_block_rendering :
    (contextBlock [] = "Aucune documentation spécifique trouvée pour cette requête." ∧
     contextBlock [] ≠ "") ∧
    (∀ (d : RetrievedDoc) (ds : List RetrievedDoc),
      contextBlock (d :: ds) = String.intercalate "\n\n" ((d :: ds).map renderDoc)) ∧
    (∀ d : RetrievedDoc,
      renderDoc d =
        "Source: " ++ (List.lookup "source" d.metadata).getD "Doc" ++
          "\nContenu: " ++ d.page_content) ∧
    (∃ a b : String,
      build_system_prompt
          [⟨"Infusion de menthe poivrée recommandée", [("source", "fiche_maux_de_tete")]⟩]
        = a ++ "Source: fiche_maux_de_tete\nContenu: Infusion de menthe poivrée recommandée" ++ b) := by
  refine ⟨⟨rfl, by decide⟩, fun d ds => rfl, fun d => rfl, promptHead, promptTail, ?_⟩
  have hblock :
      contextBlock
          [⟨"Infusion de menthe poivrée recommandée", [("source", "fiche_maux_de_tete")]⟩]
        = "Source: fiche_maux_de_tete\nContenu: Infusion de menthe poivrée recommandée" := by
    decide
  rw [build_system_prompt, hblock]

/-- Claim C3: the composed message sequence is exactly one system message at
    position 0, then the folded history pairs in order, then the current user
    message; in particular the concrete example folds as
    [system, user hi, assistant hello, user how-are-you]. -/
theorem compose_message_order :
    (∀ (docs : List RetrievedDoc) (history : List (List String)) (message : String),
      compose docs history message
        = Msg.system (build_system_prompt docs) :: (format_history history ++ [Msg.user message])) ∧
    (∀ (docs : List RetrievedDoc) (history : List (List String)) (message : String),
      ((compose docs history message).filter isSystemMsg).length = 1 ∧
      (compose docs history message).head? = some (Msg.system (build_system_prompt docs))) ∧
    compose [] [["hi", "hello"]] "how are you"
      = [Msg.system (build_system_prompt []), Msg.user "hi", Msg.assistant "hello",
         Msg.user "how are you"] := by
  refine ⟨fun docs history message => rfl, fun docs history message => ⟨?_, rfl⟩, ?_⟩
  · simp [compose, List.filter_append, format_history_filter_system, isSystemMsg]
  · simp [compose, format_history, turnMsgs]

/-- Claim C10: history folding is total over arbitrarily shaped
    list-of-lists-of-strings histories: short turns are skipped, elements
    past the first two are ignored, and an empty side omits only that
    side's message. -/
theorem history_folding_total :
    (∀ (u b : String) (rest : List String), turnMsgs (u :: b :: rest) = turnMsgs [u, b]) ∧
    (∀ t : List String, t.length < 2 → turnMsgs t = []) ∧
    (∀ (b : String) (rest : List String),
      turnMsgs ("" :: b :: rest) = if b = "" then [] else [Msg.assistant b]) ∧
    (∀ (u : String) (rest : List String),
      turnMsgs (u :: "" :: rest) = if u = "" then [] else [Msg.user u]) ∧
    (∀ (t : List String) (h : List (List String)),
      format_history (t :: h) = turnMsgs t ++ format_history h) := by
  refine ⟨fun u b rest => rfl, ?_, ?_, ?_, fun t h => rfl⟩
  · intro t ht
    match t with
    | [] => rfl
    | [u] => rfl
    | u :: b :: rest => simp at ht; omega
  · intro b rest
    by_cases hb : b = "" <;> simp [turnMsgs, hb]
  · intro u rest
    by_cases hu : u = "" <;> simp [turnMsgs, hu]

/-- Claim C10 witness: a one-element turn has length below two and folds to
    no messages. -/
theorem history_folding_total_witness :
    (["solo"] : List String).length < 2 ∧ turnMsgs ["solo"] = [] :=
  ⟨by decide, history_folding_total.2.1 ["solo"] (by decide)⟩

/- ===== vector_db_api.py ===== -/

/-- Embeds a langchain Document as handled by vector_db_api.py: text plus a
    string-keyed metadata map, modelled as an association list read through
    List.lookup (first binding wins, matching a Python dict read after
    update). -/
structure RawDoc where
  page_content : String
  metadata : List (String × String)
deriving DecidableEq

/-- The basename of a path: the part after the last slash
    (Path(file_path) component access). -/
def pathBasename (p : String) : String :=
  String.mk ((p.toList.reverse.takeWhile (fun c => c != '/')).reverse)

/-- Path(file_path).suffix: the extension with its dot, computed as Python
    pathlib does — the slice of the basename from its last dot, provided that
    dot is neither the first nor the last character; otherwise empty. -/
def pathSuffix (p : String) : String :=
  let cs := (pathBasename p).toList
  match cs.reverse.findIdx? (fun c => c == '.') with
  | some j =>
      let i := cs.length - 1 - j
      if 0 < i ∧ i < cs.length - 1 then String.mk (cs.drop i) else ""
  | none => ""

/-- Python str.lower, character-wise. -/
def lowerStr (s : String) : String := String.mk (s.toList.map Char.toLower)

/-- Python str.lstrip( '.' ): drops every leading dot. -/
def stripDots (s : String) : String := String.mk (s.toList.dropWhile (fun c => c == '.'))

/-- file_ext = Path(file_path).suffix.lower() (vector_db_api.py line 42). -/
def fileExtOf (file_path : String) : String := lowerStr (pathSuffix file_path)

/-- The metadata update in _load_document_from_file (vector_db_api.py lines
    60-65): doc.metadata.update sets the three keys, shadowing any prior
    binding. -/
def applyUploadMeta (filename file_type : String) (m : List (String × String)) :
    List (String × String) :=
  ("source", "uploaded") :: ("filename", filename) :: ("file_type", file_type) :: m

/-- Embeds _load_document_from_file (vector_db_api.py lines 40-71). The
    format-specific langchain loaders (TextLoader, PyPDFLoader, CSVLoader)
    are external and abstracted as format_loader; the function computes the
    lowercased extension, rejects unsupported ones, and stamps the three
    metadata keys on every returned document. -/
def load_document_from_file (format_loader : String → List RawDoc)
    (file_path filename : String) : Except String (List RawDoc) :=
  if fileExtOf file_path = ".txt" ∨ fileExtOf file_path = ".md" ∨
      fileExtOf file_path = ".pdf" ∨ fileExtOf file_path = ".csv" then
    Except.ok ((format_loader file_path).map (fun d =>
      { d with metadata := applyUploadMeta filename (stripDots (fileExtOf file_path)) d.metadata }))
  else
    Except.error ("Unsupported file type: " ++ fileExtOf file_path)

/-- Fuel-driven helper for the batching loop: fuel at least the list length
    makes it total, and each step takes one slice of at most 1000 chunks. -/
def batchedAux {α : Type} : Nat → List α → List (List α)
  | 0, _ => []
  | _ + 1, [] => []
  | fuel + 1, x :: xs => ((x :: xs).take 1000) :: batchedAux fuel ((x :: xs).drop 1000)

/-- The slicing loop of add_document (vector_db_api.py lines 303-307):
    for i in range(0, len(chunks), 1000): batch = chunks[i:i + 1000]. -/
def batched {α : Type} (chunks : List α) : List (List α) :=
  batchedAux chunks.length chunks

/-- The per-batch insertion loop (vector_db_api.py lines 306-312) against a
    store that commits each add_documents call independently: okCount batches
    succeed and are appended to the store, then the store fails and the loop
    stops, leaving the previously committed batches in place. The independent-commit
    behaviour of PGVector.add_documents is external to the repository. -/
def runAdd {α : Type} : Nat → List α → List (List α) → List α
  | _, store, [] => store
  | 0, store, _ => store
  | okCount + 1, store, batch :: rest => runAdd okCount (store ++ batch) rest

/-- A row of langchain_pg_embedding as the removal query sees it: the owning
    collection name (via the join on langchain_pg_collection) and the two
    metadata keys the query reads; a missing key reads as none, matching SQL
    ->> returning NULL. -/
structure DbRecord where
  collection : String
  source : Option String
  filename : Option String
deriving DecidableEq

/-- The WHERE clause of the DELETE in _remove_documents_from_db
    (vector_db_api.py lines 96-105). -/
def matchesRemoval (collection_name source filename : String) (r : DbRecord) : Bool :=
  (r.source == some source && r.filename == some filename) ||
  (r.collection == collection_name && r.filename == some filename)

/-- Embeds _remove_documents_from_db (vector_db_api.py lines 84-119) at the
    database level: the DELETE keeps exactly the non-matching rows and
    rowcount is the number of matching rows. -/
def remove_documents_from_db (collection_name : String) (db : List DbRecord)
    (source filename : String) : List DbRecord × Nat :=
  (db.filter (fun r => !(matchesRemoval collection_name source filename r)),
   (db.filter (matchesRemoval collection_name source filename)).length)

/-- Outcome of the database call as seen by the /remove_document endpoint:
    the boolean _remove_documents_from_db returns (deleted_count > 0), or a
    raised psycopg error. -/
inductive DbOutcome where
  | ok (removed : Bool)
  | dbError (msg : String)
deriving DecidableEq

/-- An HTTP response: status code and body text. -/
structure HttpResponse where
  status : Nat
  body : String
deriving DecidableEq

/-- Embeds the /remove_document endpoint (vector_db_api.py lines 338-366):
    success message when something was removed, 404 when nothing matched,
    500 on a database error. -/
def remove_document (filename : String) (db_result : DbOutcome) : HttpResponse :=
  match db_result with
  | DbOutcome.ok true =>
      ⟨200, "Successfully removed " ++ filename ++ " from knowledge base"⟩
  | DbOutcome.ok false => ⟨404, "Document not found: " ++ filename⟩
  | DbOutcome.dbError m => ⟨500, "Database error: " ++ m⟩

/-- The operations of the /add_document handler that touch the temporary
    file (vector_db_api.py lines 285-326), in source order. -/
inductive UploadOp where
  | createTmp
  | readUpload
  | writeTmp
  | loadDoc
  | splitDoc
  | addChunks
deriving DecidableEq

/-- An operation of the handler together with whether the try/finally that
    removes the temporary file (lines 290, 324-326) is active around it: the
    with-block creating and filling the file (lines 285-288) runs before that
    try is entered. -/
structure AnnotatedOp where
  op : UploadOp
  cleanupInstalled : Bool
deriving DecidableEq

/-- The handler's operation sequence read off vector_db_api.py lines 285-312:
    NamedTemporaryFile(delete := False), file.read(), tmp_file.write —
    all before the try — then loading, splitting and batch insertion inside
    the try whose finally removes the file. -/
def uploadOps : List AnnotatedOp :=
  [⟨UploadOp.createTmp, false⟩, ⟨UploadOp.readUpload, false⟩, ⟨UploadOp.writeTmp, false⟩,
   ⟨UploadOp.loadDoc, true⟩, ⟨UploadOp.splitDoc, true⟩, ⟨UploadOp.addChunks, true⟩]

/-- Runs the handler with an optional failing operation, tracking whether the
    temporary file exists; an exception unwinds through the finally only when
    that handler is installed at the failure point, and the success path ends
    in the finally, which removes the file. -/
def runUploadAux (fail_at : Option UploadOp) : List AnnotatedOp → Bool → Bool
  | [], _ => false
  | step :: rest, tmp_exists =>
      if fail_at = some step.op then
        if step.cleanupInstalled then false else tmp_exists
      else
        runUploadAux fail_at rest (tmp_exists || (step.op == UploadOp.createTmp))

/-- Whether the temporary file is left on disk after one /add_document
    request that fails at the given operation (none = full success). -/
def tmpFileLeaked (fail_at : Option UploadOp) : Bool :=
  runUploadAux fail_at uploadOps false

/- ===== ingest_documents.py ===== -/

/-- Embeds the upload selection of ingest_documents (ingest_documents.py
    lines 17, 41-52): glob("*.pdf") keeps the pdf-named files, and every file
    whose name is in the existing-documents set is skipped; each remaining
    file triggers exactly one /add_document call. -/
def ingestUploads (dir_files existing : List String) : List String :=
  (dir_files.filter (fun f => List.isSuffixOf ".pdf".toList f.toList)).filter
    (fun f => !(decide (f ∈ existing)))

/- ===== helper lemmas for batching ===== -/

theorem batchedAux_fuel_irrel {α : Type} :
    ∀ (f g : Nat) (xs : List α), xs.length ≤ f → xs.length ≤ g →
      batchedAux f xs = batchedAux g xs := by
  intro f
  induction f with
  | zero =>
      intro g xs hf _
      have hnil : xs = [] := List.length_eq_zero.mp (Nat.le_zero.mp hf)
      subst hnil
      cases g <;> rfl
  | succ f ih =>
      intro g xs hf hg
      match xs with
      | [] => cases g <;> rfl
      | x :: xs =>
          match g, hg with
          | g + 1, hg =>
              simp only [batchedAux]
              congr 1
              apply ih
              · simp only [List.length_drop, List.length_cons] at *
                omega
              · simp only [List.length_drop, List.length_cons] at *
                omega

theorem batched_nil {α : Type} : batched ([] : List α) = [] := rfl

theorem batched_cons {α : Type} (x : α) (xs : List α) :
    batched (x :: xs) = (x :: xs).take 1000 :: batched ((x :: xs).drop 1000) := by
  show batchedAux (xs.length + 1) (x :: xs) = _
  simp only [batchedAux, batched]
  congr 1
  apply batchedAux_fuel_irrel
  · simp only [List.length_drop, List.length_cons]
    omega
  · exact Nat.le_refl _

theorem runAdd_flatten {α : Type} :
    ∀ (bs : List (List α)) (k : Nat) (store : List α),
      runAdd k store bs = store ++ (bs.take k).flatten := by
  intro bs
  induction bs with
  | nil => intro k store; cases k <;> simp [runAdd]
  | cons b rest ih =>
      intro k store
      cases k with
      | zero => simp [runAdd]
      | succ k => simp [runAdd, ih, List.append_assoc]

theorem batched_take_flatten {α : Type} :
    ∀ (k : Nat) (xs : List α), ((batched xs).take k).flatten = xs.take (1000 * k) := by
  intro k
  induction k with
  | zero => intro xs; simp
  | succ k ih =>
      intro xs
      match xs with
      | [] => simp [batched_nil]
      | x :: xs =>
          rw [batched_cons, List.take_succ_cons, List.flatten_cons, ih,
            ← List.take_add]
          congr 1
          omega

theorem batchedAux_length {α : Type} :
    ∀ (f : Nat) (xs : List α), xs.length ≤ f →
      (batchedAux f xs).length = (xs.length + 999) / 1000 := by
  intro f
  induction f with
  | zero =>
      intro xs hf
      have hnil : xs = [] := List.length_eq_zero.mp (Nat.le_zero.mp hf)
      subst hnil
      simp [batchedAux]
  | succ f ih =>
      intro xs hf
      match xs with
      | [] => simp [batchedAux]
      | x :: xs =>
          simp only [batchedAux, List.length_cons]
          rw [ih]
          · simp only [List.length_drop, List.length_cons]
            omega
          · simp only [List.length_drop, List.length_cons] at *
            omega

/- ===== claim theorems for vector_db_api.py and ingest_documents.py ===== -/

/-- Claim C4: chunks are inserted in batches of at most 1000, ceil(n/1000)
    batch calls for n chunks, and a store failure after the second batch of a
    2500-chunk input leaves exactly the first 2000 chunks durably committed. -/
theorem add_document_batching (xs : List RawDoc) :
    (batched xs).length = (xs.length + 999) / 1000 ∧
    (∀ b ∈ batched xs, b.length ≤ 1000) ∧
    runAdd 2 [] (batched xs) = xs.take 2000 ∧
    (xs.length = 2500 → (batched xs).length = 3 ∧ (runAdd 2 [] (batched xs)).length = 2000) := by
  have hlen : (batched xs).length = (xs.length + 999) / 1000 :=
    batchedAux_length xs.length xs (Nat.le_refl _)
  have hrun : runAdd 2 [] (batched xs) = xs.take 2000 := by
    rw [runAdd_flatten, List.nil_append, batched_take_flatten]
  refine ⟨hlen, ?_, hrun, ?_⟩
  · intro b hb
    have : ∀ (f : Nat) (ys : List RawDoc), b ∈ batchedAux f ys → b.length ≤ 1000 := by
      intro f
      induction f with
      | zero => intro ys hmem; exact absurd hmem (List.not_mem_nil b)
      | succ f ih =>
          intro ys hmem
          match ys with
          | [] => exact absurd hmem (List.not_mem_nil b)
          | y :: ys =>
              simp only [batchedAux, List.mem_cons] at hmem
              rcases hmem with hmem | hmem
              · subst hmem
                exact List.length_take_le 1000 (y :: ys)
              · exact ih _ hmem
    exact this xs.length xs hb
  · intro h2500
    constructor
    · rw [hlen, h2500]
    · rw [hrun, List.length_take, h2500]
      exact min_eq_left (by omega)

/-- Claim C4 witness: a concrete 2500-chunk input produces three batch calls
    and 2000 durable records after a failure following the second batch. -/
theorem add_document_batching_witness :
    (List.replicate 2500 ({ page_content := "c", metadata := [] } : RawDoc)).length = 2500 ∧
    (batched (List.replicate 2500 ({ page_content := "c", metadata := [] } : RawDoc))).length = 3 ∧
    (runAdd 2 []
      (batched (List.replicate 2500 ({ page_content := "c", metadata := [] } : RawDoc)))).length
      = 2000 :=
  ⟨List.length_replicate 2500 _,
   (add_document_batching _).2.2.2 (List.length_replicate 2500 _)⟩

/-- Claim C5: the removal deletes exactly the records whose metadata matches
    the given source and filename, or whose owning collection is the
    configured collection name and whose metadata filename matches, and no
    other records. -/
theorem remove_deletes_exactly_matching (cfg : String) (db : List DbRecord)
    (s f : String) (r : DbRecord) :
    (matchesRemoval cfg s f r = true ↔
      ((r.source = some s ∧ r.filename = some f) ∨
       (r.collection = cfg ∧ r.filename = some f))) ∧
    (r ∈ (remove_documents_from_db cfg db s f).1 ↔
      r ∈ db ∧ ¬((r.source = some s ∧ r.filename = some f) ∨
                 (r.collection = cfg ∧ r.filename = some f))) ∧
    (remove_documents_from_db cfg db s f).2
      = (db.filter (matchesRemoval cfg s f)).length := by
  have hmatch : matchesRemoval cfg s f r = true ↔
      ((r.source = some s ∧ r.filename = some f) ∨
       (r.collection = cfg ∧ r.filename = some f)) := by
    simp [matchesRemoval]
  refine ⟨hmatch, ?_, rfl⟩
  rw [← hmatch]
  simp [remove_documents_from_db, List.mem_filter]

/-- Claim C6: removing the same (source, filename) again after a successful
    removal matches zero records instead of failing; at the HTTP surface the
    endpoint answers 404 when nothing matched, 500 on a database error, and a
    success message naming the file otherwise. -/
theorem remove_idempotent_and_http (cfg : String) (db : List DbRecord) (s f m : String) :
    (remove_documents_from_db cfg (remove_documents_from_db cfg db s f).1 s f).2 = 0 ∧
    remove_document f (DbOutcome.ok false)
      = ⟨404, "Document not found: " ++ f⟩ ∧
    remove_document f (DbOutcome.dbError m)
      = ⟨500, "Database error: " ++ m⟩ ∧
    remove_document f (DbOutcome.ok true)
      = ⟨200, "Successfully removed " ++ f ++ " from knowledge base"⟩ := by
  refine ⟨?_, rfl, rfl, rfl⟩
  simp [remove_documents_from_db, List.filter_filter]

/-- Claim C7: during directory ingestion, a file whose filename is already in
    the current document listing is skipped — zero add calls for it. -/
theorem ingest_skips_existing (dir_files existing : List String) (f : String)
    (h : f ∈ existing) :
    (ingestUploads dir_files existing).count f = 0 := by
  rw [List.count_eq_zero]
  intro hin
  simp only [ingestUploads, List.mem_filter, Bool.not_eq_true', decide_eq_false_iff_not] at hin
  exact hin.2 h

/-- Claim C7 witness: an index already containing f.csv makes re-ingesting a
    directory with f.csv produce zero add calls for it. -/
theorem ingest_skips_existing_witness :
    ("f.csv" : String) ∈ ["f.csv"] ∧
    (ingestUploads ["f.csv", "a.pdf"] ["f.csv"]).count "f.csv" = 0 :=
  ⟨by decide, ingest_skips_existing ["f.csv", "a.pdf"] ["f.csv"] "f.csv" (by decide)⟩

/-- Claim C8: every document returned by a successful load carries metadata
    source = "uploaded", filename equal to the supplied display name, and
    file_type equal to the computed (lowercased) extension without its
    leading dot. -/
theorem loader_stamps_metadata (format_loader : String → List RawDoc)
    (file_path filename : String) (docs : List RawDoc)
    (h : load_document_from_file format_loader file_path filename = Except.ok docs)
    (d : RawDoc) (hd : d ∈ docs) :
    List.lookup "source" d.metadata = some "uploaded" ∧
    List.lookup "filename" d.metadata = some filename ∧
    List.lookup "file_type" d.metadata = some (stripDots (fileExtOf file_path)) := by
  unfold load_document_from_file at h
  split at h
  · have hdocs : docs = (format_loader file_path).map (fun d =>
        { d with
            metadata :=
              applyUploadMeta filename (stripDots (fileExtOf file_path)) d.metadata }) := by
      cases h
      rfl
    subst hdocs
    rw [List.mem_map] at hd
    obtain ⟨d0, _, hd0⟩ := hd
    subst hd0
    simp [applyUploadMeta, List.lookup]
  · cases h

/-- Claim C8 witness: loading doc.txt stamps the three metadata keys, with
    file_type txt. -/
theorem loader_stamps_metadata_witness :
    List.lookup "source"
      (applyUploadMeta "doc.txt" "txt" ([("k", "v")] : List (String × String)))
      = some "uploaded" ∧
    List.lookup "filename"
      (applyUploadMeta "doc.txt" "txt" ([("k", "v")] : List (String × String)))
      = some "doc.txt" ∧
    List.lookup "file_type"
      (applyUploadMeta "doc.txt" "txt" ([("k", "v")] : List (String × String)))
      = some "txt" := by
  have h := loader_stamps_metadata (fun _ => [⟨"contenu", [("k", "v")]⟩])
    "/tmp/doc.txt" "doc.txt"
    [⟨"contenu", applyUploadMeta "doc.txt" "txt" [("k", "v")]⟩]
    (by rfl) ⟨"contenu", applyUploadMeta "doc.txt" "txt" [("k", "v")]⟩ (by decide)
  simpa using h

/-- Claim C9: the claim asks that the temporary file be removed on every exit
    path of /add_document, including exceptions while reading the upload; the
    code only removes it on success and on failures inside the load/split/
    insert try block, so a failure of file.read() or tmp_file.write() —
    which run before that try, after NamedTemporaryFile(delete := False) has
    created the file — leaks the temporary file. -/
theorem tmp_file_leak_on_read_failure :
    tmpFileLeaked (some UploadOp.readUpload) = true ∧
    tmpFileLeaked (some UploadOp.writeTmp) = true ∧
    tmpFileLeaked none = false ∧
    tmpFileLeaked (some UploadOp.createTmp) = false ∧
    tmpFileLeaked (some UploadOp.loadDoc) = false ∧
    tmpFileLeaked (some UploadOp.splitDoc) = false ∧
    tmpFileLeaked (some UploadOp.addChunks) = false := by
  decide

end Medaltea
